import Mathlib

/-!
# Verification of the CDP support agent retrieval-and-ranking pipeline

Shallow embedding of the retrieval core of the `cdp-support-agent`
repository (`src/src/retriever/retriever.py`, `src/src/retriever/ranker.py`,
`src/src/scraper/processors.py`, `src/src/chatbot/response_generator.py`,
`src/src/config.py`) together with theorems settling the specification
claims about it.

Modelling conventions:
* Python floats are modelled as `ℚ` (the scores and thresholds involved are
  small decimal constants and the claims are about exact arithmetic
  relations between them).
* The vector index (`VectorStore.query`) is an external collaborator; it is
  passed in as a function argument `store`.  The metadata filter dictionary
  built by the retriever contains at most the key `platform`, so it is
  modelled as `Option String`.
* `nltk.sent_tokenize` is an external collaborator; the chunking functions
  take the produced sentence list as input.
* Python's `hash` of the first 100 characters of a chunk (used for
  deduplication) is modelled by the first-100-character string itself: the
  dedup semantics of the source, up to accepted hash collisions, is exactly
  equality of those prefixes.
* Python `dict` values preserving insertion order are modelled as
  association lists `List (String × _)`.
-/

/-! ## Generic string helpers mirroring the Python primitives used -/

/-- Python `str.lower()` (`String.toLower`, via the character list so that
it evaluates by kernel reduction). -/
def py_lower (s : String) : String := String.mk (s.data.map Char.toLower)

/-- `s[:n]` / `String.take`, via the character list. -/
def py_take (n : Nat) (s : String) : String := String.mk (s.data.take n)

/-- `s.startswith(pre)`, via the character list. -/
def str_starts_with (s pre : String) : Bool := pre.data.isPrefixOf s.data

/-- Substring scan over character lists: `needle` occurs contiguously in `hay`. -/
def list_has_sub : List Char → List Char → Bool
  | [], needle => needle.isEmpty
  | c :: rest, needle => needle.isPrefixOf (c :: rest) || list_has_sub rest needle

/-- Python `needle in hay` (substring containment). -/
def str_contains (hay needle : String) : Bool :=
  list_has_sub hay.toList needle.toList

/-- Python `str.capitalize()`: first character uppercased, the rest lowercased. -/
def py_capitalize (s : String) : String :=
  match s.toList with
  | [] => ""
  | c :: rest => String.mk (c.toUpper :: rest.map Char.toLower)

/-- Python `content[:n] + "..." if len(content) > n else content`. -/
def py_truncate (n : Nat) (s : String) : String :=
  if n < s.length then py_take n s ++ "..." else s

/-- Python `sep.join(parts)`. -/
def py_join (sep : String) (parts : List String) : String :=
  match parts with
  | [] => ""
  | s :: rest => rest.foldl (fun acc x => acc ++ sep ++ x) s

/-- Concatenation of string pieces (used for Python `+=` accumulation). -/
def str_concat : List String → String
  | [] => ""
  | s :: rest => s ++ str_concat rest

/-- Python `str.count` (non-overlapping occurrence count, left to right). -/
def py_count : List Char → List Char → Nat
  | [], needle => if needle.isEmpty then 1 else 0
  | c :: rest, needle =>
    if needle.isEmpty then 1 + py_count rest needle
    else if needle.isPrefixOf (c :: rest) then
      1 + py_count (rest.drop (needle.length - 1)) needle
    else py_count rest needle
termination_by l _ => l.length
decreasing_by
  all_goals simp_all [List.length_drop]
  omega

/-- A Python `\w` word character (ASCII range, as appearing in this corpus). -/
def is_word_char (c : Char) : Bool := c.isAlphanum || c = '_'

/-- All maximal word-character runs: Python `re.findall(r'\b\w+\b', s)`. -/
def word_tokens : List Char → List (List Char)
  | [] => []
  | c :: rest =>
    if is_word_char c then
      let run := rest.takeWhile is_word_char
      (c :: run) :: word_tokens (rest.drop run.length)
    else word_tokens rest
termination_by l => l.length
decreasing_by
  all_goals simp_all [List.length_drop]
  omega

/-! ## Data model (§3 of the spec)

`Metadata` and scored retrieval results, as the dict-shaped records of the
source. `distance` is `Option ℚ` (`None` when the index returns no
distance). -/

structure Metadata where
  platform : String
  title : String
  url : String
  heading_hierarchy : List String
  doc_type : String
deriving DecidableEq

structure RetrievalResult where
  content : String
  metadata : Metadata
  id : String
  distance : Option ℚ
deriving DecidableEq

/-- A retrieval result after the ranker has annotated its scores. -/
structure ScoredResult where
  content : String
  metadata : Metadata
  id : String
  distance : Option ℚ
  content_score : ℚ
  metadata_score : ℚ
  final_score : ℚ
deriving DecidableEq

/-- `src/config.py`: `SIMILARITY_THRESHOLD = 0.7`. -/
def SIMILARITY_THRESHOLD : ℚ := 0.7

/-- `src/config.py`: `TOP_K_RESULTS = 5`. -/
def TOP_K_RESULTS : Nat := 5

/-! ## Query classifier (`DocumentRetriever` helpers, retriever.py) -/

/-- `DocumentRetriever._extract_cdp_from_query`: first platform name that is
a substring of the lowercased query. -/
def extract_cdp_from_query (query : String) : Option String :=
  let query_lower := py_lower query
  ["segment", "mparticle", "lytics", "zeotap"].find?
    (fun cdp => str_contains query_lower cdp)

/-- Helper for the regex `how does .+ compare`: after `"how does "`, at least
one non-newline character must be consumed before `" compare"` follows. -/
def hdc_scan : List Char → Bool
  | [] => false
  | c :: rest =>
    if c = '\n' then false
    else " compare".toList.isPrefixOf rest || hdc_scan rest

/-- `re.search(r"how does .+ compare", q)` on an already lowercased query. -/
def how_does_compare_match : List Char → Bool
  | [] => false
  | c :: rest =>
    ("how does ".toList.isPrefixOf (c :: rest) && hdc_scan ((c :: rest).drop 9))
      || how_does_compare_match rest

/-- The comparison patterns of `_classify_query_type`, in source order.  All
but `how does .+ compare` are plain substring searches. -/
def comparison_match (query_lower : String) : Bool :=
  str_contains query_lower "compare"
    || str_contains query_lower "difference between"
    || str_contains query_lower "vs"
    || str_contains query_lower "versus"
    || how_does_compare_match query_lower.toList
    || str_contains query_lower "which is better"
    || str_contains query_lower "pros and cons"

/-- The how-to patterns of `_classify_query_type`, in source order.  The
regex `how (to|do|can|should)` is the disjunction of its four literal
expansions. -/
def how_to_match (query_lower : String) : Bool :=
  (str_contains query_lower "how to" || str_contains query_lower "how do"
      || str_contains query_lower "how can" || str_contains query_lower "how should")
    || str_contains query_lower "steps to"
    || str_contains query_lower "guide for"
    || str_contains query_lower "tutorial"
    || str_contains query_lower "instructions for"
    || str_contains query_lower "process of"

/-- `DocumentRetriever._classify_query_type`: comparison patterns are
checked before how-to patterns; default is `"general"`. -/
def classify_query_type (query : String) : String :=
  let query_lower := py_lower query
  if comparison_match query_lower then "comparison"
  else if how_to_match query_lower then "how-to"
  else "general"

/-- `DocumentRetriever._is_relevant_query`: the fixed relevance vocabulary,
verbatim from the source (including the duplicated `"segment"`). -/
def relevant_terms : List String :=
  ["segment", "mparticle", "lytics", "zeotap", "cdp",
   "customer data platform", "data", "analytics", "integration",
   "tracking", "source", "destination", "audience", "profile",
   "event", "user", "identity", "segment", "campaign"]

/-- `DocumentRetriever._is_relevant_query`. -/
def is_relevant_query (query : String) : Bool :=
  let query_lower := py_lower query
  relevant_terms.any (fun term => str_contains query_lower term)

/-- The single-query analysis dict built by `DocumentRetriever.retrieve`. -/
structure QueryAnalysis where
  cdp : Option String
  query_type : String
  is_relevant : Bool
deriving DecidableEq

/-- The per-result distance cutoff of `DocumentRetriever.retrieve` and
`ComparisonRetriever.retrieve_for_comparison`:
`result.get("distance") is None or result.get("distance") < SIMILARITY_THRESHOLD`. -/
def distance_keep (r : RetrievalResult) : Bool :=
  match r.distance with
  | none => true
  | some d => d < SIMILARITY_THRESHOLD

/-- The index collaborator: `VectorStore.query(query_text, n_results,
filter_dict)`; the filter dict contains at most `{"platform": cdp}` and is
modelled as `Option String`. -/
abbrev Store := String → Nat → Option String → List RetrievalResult

/-- `DocumentRetriever.retrieve`.  The extra `Nat` component counts the
number of `VectorStore.query` invocations performed (it annotates the single
call site), so that "never touches the index" is stated observably. -/
def retrieve (store : Store) (query : String) (top_k : Nat) :
    (List RetrievalResult × QueryAnalysis) × Nat :=
  let cdp := extract_cdp_from_query query
  let query_type := classify_query_type query
  let is_relevant := is_relevant_query query
  let query_analysis : QueryAnalysis := ⟨cdp, query_type, is_relevant⟩
  if !is_relevant then (([], query_analysis), 0)
  else
    let filter_dict : Option String := cdp
    let results := store query top_k filter_dict
    let relevant_results := results.filter distance_keep
    ((relevant_results, query_analysis), 1)

/-- `ComparisonRetriever._extract_cdps_for_comparison`: all platform names
occurring in the lowercased query, in the fixed platform-list order. -/
def extract_cdps_for_comparison (query : String) : List String :=
  let query_lower := py_lower query
  ["segment", "mparticle", "lytics", "zeotap"].filter
    (fun cdp => str_contains query_lower cdp)

/-- The comparison query analysis dict of `retrieve_for_comparison`. -/
structure ComparisonAnalysis where
  cdps : List String
  feature : Option String
  query_type : String
deriving DecidableEq

/-- `ComparisonRetriever.retrieve_for_comparison`, with the feature
extraction result passed in by the caller (its regexes are involved and are
irrelevant to every claim: only whether a feature was found matters).  The
`Nat` component counts `VectorStore.query` invocations. -/
def retrieve_for_comparison (store : Store) (query : String)
    (feature : Option String) (top_k_per_cdp : Nat) :
    (List (String × List RetrievalResult) × ComparisonAnalysis) × Nat :=
  let cdps₀ := extract_cdps_for_comparison query
  let cdps := if cdps₀.isEmpty then ["segment", "mparticle", "lytics", "zeotap"] else cdps₀
  let comparison_query := match feature with
    | some f => f
    | none => query
  let query_analysis : ComparisonAnalysis := ⟨cdps, feature, "comparison"⟩
  let results := cdps.map (fun cdp =>
    (cdp, (store comparison_query top_k_per_cdp (some cdp)).filter distance_keep))
  ((results, query_analysis), cdps.length)

/-! ## Result ranker (`ResultRanker`, ranker.py) -/

/-- Query keywords: word tokens of the lowercased query longer than 3
characters (`_calculate_content_relevance_score` / metadata score). -/
def query_keywords (query_lower : String) : List (List Char) :=
  (word_tokens query_lower.toList).filter (fun kw => 3 < kw.length)

/-- `ResultRanker._calculate_content_relevance_score`. -/
def calculate_content_relevance_score (content query : String) : ℚ :=
  let content_lower := (py_lower content).toList
  let keywords := query_keywords (py_lower query)
  let keyword_count : Nat := (keywords.map (fun kw => py_count content_lower kw)).sum
  let content_word_count := (word_tokens content_lower).length
  if content_word_count = 0 then 0
  else
    let keyword_density : ℚ := (keyword_count : ℚ) / (content_word_count : ℚ) * 100
    min 1 (keyword_density / 5)

/-- `ResultRanker._calculate_metadata_relevance_score`. -/
def calculate_metadata_relevance_score (metadata : Metadata) (query : String) : ℚ :=
  let query_lower := py_lower query
  let is_how_to := str_contains query_lower "how to" || str_contains query_lower "how do"
      || str_contains query_lower "how can" || str_contains query_lower "how should"
  let doc_type := metadata.doc_type
  let type_match_score : ℚ :=
    if is_how_to ∧ doc_type = "how-to" then 1
    else if ¬is_how_to ∧ doc_type = "reference" then 0.8
    else if doc_type = "overview" then 0.6
    else 0
  let title_lower := (py_lower metadata.title).toList
  let keywords := query_keywords query_lower
  let title_match_count : Nat := (keywords.map (fun kw => py_count title_lower kw)).sum
  let title_match_score : ℚ := min 1 ((title_match_count : ℚ) / (max 1 keywords.length : ℚ))
  let heading_match_count : Nat :=
    (metadata.heading_hierarchy.map (fun heading =>
      (keywords.map (fun kw => py_count (py_lower heading).toList kw)).sum)).sum
  let heading_match_score : ℚ :=
    min 1 ((heading_match_count : ℚ) / (max 1 (keywords.length * 2) : ℚ))
  0.4 * type_match_score + 0.3 * title_match_score + 0.3 * heading_match_score

/-- Distance component of `_calculate_final_score`: `1.0` when the distance
is `None`, else `1.0 - min(1.0, distance)`. -/
def distance_score (distance : Option ℚ) : ℚ :=
  match distance with
  | none => 1
  | some d => 1 - min 1 d

/-- `ResultRanker._calculate_final_score`. -/
def calculate_final_score (distance : Option ℚ) (content_score metadata_score : ℚ) : ℚ :=
  0.5 * distance_score distance + 0.3 * content_score + 0.2 * metadata_score

/-- Score annotation of one result inside `ResultRanker.rank_results`. -/
def score_result (query : String) (r : RetrievalResult) : ScoredResult :=
  let content_score := calculate_content_relevance_score r.content query
  let metadata_score := calculate_metadata_relevance_score r.metadata query
  { content := r.content, metadata := r.metadata, id := r.id, distance := r.distance,
    content_score := content_score, metadata_score := metadata_score,
    final_score := calculate_final_score r.distance content_score metadata_score }

/-- `ResultRanker.rank_results`: score, then stable sort descending by
`final_score` (Python `sorted(..., reverse=True)` is a stable sort). -/
def rank_results (results : List RetrievalResult) (query : String) : List ScoredResult :=
  if results.isEmpty then []
  else
    let scored_results := results.map (score_result query)
    scored_results.mergeSort (fun a b => b.final_score ≤ a.final_score)

/-- Dedup key of `ResultRanker.filter_results`: the first 100 characters of
the content (stands for `hash(content[:100])`, see the header comment). -/
def content_key (r : ScoredResult) : String := py_take 100 r.content

/-- The dedup loop of `ResultRanker.filter_results`: keep a result when the
key of its first 100 content characters has not been seen yet. -/
def dedup_by_key (seen : List String) : List ScoredResult → List ScoredResult
  | [] => []
  | r :: rest =>
    if content_key r ∈ seen then dedup_by_key seen rest
    else r :: dedup_by_key (content_key r :: seen) rest

/-- `ResultRanker.filter_results`: threshold `final_score ≥ 0.3`, then dedup
by first-100-character key keeping the first occurrence. -/
def filter_results (results : List ScoredResult) : List ScoredResult :=
  if results.isEmpty then []
  else
    let filtered_results := results.filter (fun r => (0.3 : ℚ) ≤ r.final_score)
    dedup_by_key [] filtered_results

/-- `ComparisonResultsProcessor.process_comparison_results`: rank then
filter independently per platform; every key is preserved (possibly with an
empty list). -/
def process_comparison_results (comparison_results : List (String × List RetrievalResult))
    (query : String) (feature : Option String) : List (String × List ScoredResult) :=
  let ranking_query := match feature with
    | some f => f
    | none => query
  comparison_results.map (fun p =>
    (p.1, filter_results (rank_results p.2 ranking_query)))

/-! ## Chunk preparer (`processors.py`)

`nltk.sent_tokenize` is an external collaborator: the chunking functions
take the sentence list it produced. -/

/-- Total character count of a sentence list, excluding joining spaces: this
is exactly the `current_size` bookkeeping of `split_text_into_chunks`. -/
def sum_len (sentences : List String) : Nat := (sentences.map String.length).sum

/-- The overlap loop of `split_text_into_chunks`: walk the closed chunk in
reverse, re-including trailing sentences while the accumulated size stays
within `chunk_overlap`; first argument is the reversed chunk. -/
def take_overlap_rev (chunk_overlap : Nat) : List String → List String → Nat → List String × Nat
  | [], acc, acc_size => (acc, acc_size)
  | s :: rest, acc, acc_size =>
    if acc_size + s.length ≤ chunk_overlap then
      take_overlap_rev chunk_overlap rest (s :: acc) (acc_size + s.length)
    else (acc, acc_size)

/-- `(overlap_sentences, overlap_size)` computed from a closed chunk. -/
def take_overlap (chunk_overlap : Nat) (current_chunk : List String) : List String × Nat :=
  take_overlap_rev chunk_overlap current_chunk.reverse [] 0

/-- The sentence loop of `split_text_into_chunks`, keeping chunks as
sentence lists; `current_size` mirrors the source's counter (sum of sentence
lengths, no joining spaces).  The final `current_chunk` is emitted when
nonempty. -/
def chunk_go (chunk_size chunk_overlap : Nat) :
    List String → List String → Nat → List (List String)
  | [], current_chunk, _ => if current_chunk.isEmpty then [] else [current_chunk]
  | s :: rest, current_chunk, current_size =>
    if chunk_size < current_size + s.length ∧ current_chunk ≠ [] then
      let ov := take_overlap chunk_overlap current_chunk
      current_chunk :: chunk_go chunk_size chunk_overlap rest (ov.1 ++ [s]) (ov.2 + s.length)
    else
      chunk_go chunk_size chunk_overlap rest (current_chunk ++ [s]) (current_size + s.length)

/-- The chunks of one document as sentence lists. -/
def chunk_sentence_lists (chunk_size chunk_overlap : Nat) (sentences : List String) :
    List (List String) :=
  chunk_go chunk_size chunk_overlap sentences [] 0

/-- `split_text_into_chunks` with the sentence tokenization already done:
each chunk is `" ".join(current_chunk)`. -/
def split_text_into_chunks (sentences : List String) (chunk_size chunk_overlap : Nat) :
    List String :=
  (chunk_sentence_lists chunk_size chunk_overlap sentences).map (py_join " ")

/-! ## Metadata extraction (`processors.py`) -/

/-- One scraped heading `{level, text}`. -/
structure Heading where
  level : Int
  text : String
deriving DecidableEq

/-- Python `l[:k]` for a possibly negative `k` (the source computes
`current_hierarchy[:level-1]`, where `level` may be `0`). -/
def py_take_upto (l : List String) (k : Int) : List String :=
  if k < 0 then l.take (l.length - (-k).toNat) else l.take k.toNat

/-- The heading-hierarchy loop of `extract_metadata`: state is
`(current_level, current_hierarchy)`; each heading emits one breadcrumb
string `" > ".join(current_hierarchy)`. -/
def heading_fold : List Heading → Int → List String → List String
  | [], _, _ => []
  | h :: rest, current_level, current_hierarchy =>
    let ch := if h.level ≤ current_level then py_take_upto current_hierarchy (h.level - 1)
              else current_hierarchy
    let ch2 := ch ++ [h.text]
    py_join " > " ch2 :: heading_fold rest h.level ch2

/-- A scraped document as consumed by `extract_metadata` /
`prepare_document_chunks`. -/
structure DocumentData where
  platform : String
  title : String
  url : String
  content : String
  headings : List Heading
deriving DecidableEq

/-- `extract_metadata`. -/
def extract_metadata (data : DocumentData) : Metadata :=
  let heading_hierarchy := heading_fold data.headings 0 []
  let title_lower := py_lower data.title
  let doc_type :=
    if str_contains title_lower "how to" || str_contains title_lower "guide" then "how-to"
    else if str_contains title_lower "api" || str_contains title_lower "reference" then "reference"
    else if str_contains title_lower "overview" || str_contains title_lower "introduction" then
      "overview"
    else "unknown"
  ⟨data.platform, data.title, data.url, heading_hierarchy, doc_type⟩

/-- The persisted chunk record produced by `prepare_document_chunks`. -/
structure ChunkRecord where
  content : String
  chunk_id : String
  metadata : Metadata
deriving DecidableEq

/-- `prepare_document_chunks`; `tokenize` stands for the external
`nltk.sent_tokenize` collaborator inside `split_text_into_chunks`. -/
def prepare_document_chunks (tokenize : String → List String) (data : DocumentData)
    (chunk_size chunk_overlap : Nat) : List ChunkRecord :=
  let metadata := extract_metadata data
  let chunks := split_text_into_chunks (tokenize data.content) chunk_size chunk_overlap
  (chunks.enum).map (fun p =>
    ⟨p.2, metadata.platform ++ "_" ++ toString p.1, metadata⟩)

/-! ## Response generator (`response_generator.py`)

The step-extraction regexes of `_extract_steps` are embedded operationally
with Python `re` semantics: leftmost match, greedy `\d+` and `\s+`, lazy
`.*?` restricted to non-newline characters, `$` matching at the end of the
string or before a final newline, `findall` resuming after each match. -/

/-- Python `\s` on the characters occurring here. -/
def is_space_char (c : Char) : Bool := c.isWhitespace

/-- Python `str.strip()` (`String.trim`, via the character list so that it
evaluates by kernel reduction). -/
def py_strip (s : String) : String :=
  String.mk (((s.data.dropWhile is_space_char).reverse.dropWhile is_space_char).reverse)

/-- Does `\d+\.\s+` match at this position (used as the lookahead of the
numbered-step pattern)? -/
def num_marker (l : List Char) : Bool :=
  let ds := l.takeWhile Char.isDigit
  !ds.isEmpty &&
    (match l.drop ds.length with
     | '.' :: r => !(r.takeWhile is_space_char).isEmpty
     | _ => false)

/-- The lookahead `(?=\d+\.\s+|$)` of the numbered-step pattern. -/
def look_num (l : List Char) : Bool :=
  num_marker l || l.isEmpty || l = ['\n']

/-- Lazy `(.*?)` up to the first position where the lookahead holds; `.`
never matches a newline, so the capture aborts at `'\n'`. -/
def scan_capture (look : List Char → Bool) : List Char → Option (List Char)
  | [] => if look [] then some [] else none
  | c :: r =>
    if look (c :: r) then some []
    else if c = '\n' then none
    else (scan_capture look r).map (fun cap => c :: cap)

/-- Match `\d+\.\s+(.*?)(?=\d+\.\s+|$)` at this position, returning the
capture and the total number of characters matched (at least 3). -/
def match_num_at (l : List Char) : Option (List Char × Nat) :=
  let ds := l.takeWhile Char.isDigit
  if ds.isEmpty then none
  else
    match l.drop ds.length with
    | '.' :: r1 =>
      let ws := r1.takeWhile is_space_char
      if ws.isEmpty then none
      else
        match scan_capture look_num (r1.drop ws.length) with
        | none => none
        | some cap => some (cap, ds.length + 1 + ws.length + cap.length)
    | _ => none

/-- `re.findall` scan driver: scan left to right, attempting a match at
every position and resuming right after each match.  A successful match at
`c :: rest` has length `k ≥ 1` (at least 3 for both patterns used), so
resuming at `rest.drop (k - 1)` is resuming at `(c :: rest).drop k`; the
`fuel` argument (initially the string length) only makes the recursion
structural — every step consumes at least one character, so the initial
fuel is never exhausted. -/
def findall_go (matcher : List Char → Option (List Char × Nat)) :
    Nat → List Char → List (List Char)
  | 0, _ => []
  | _ + 1, [] => []
  | fuel + 1, c :: rest =>
    match matcher (c :: rest) with
    | none => findall_go matcher fuel rest
    | some (cap, k) => cap :: findall_go matcher fuel (rest.drop (k - 1))

/-- `re.findall` for the numbered-step pattern. -/
def findall_num (l : List Char) : List (List Char) :=
  findall_go match_num_at l.length l

/-- Does `[\*\-]\s+` match at this position (lookahead of the bullet
pattern)? -/
def bullet_marker (l : List Char) : Bool :=
  match l with
  | c :: r => (c = '*' || c = '-') && !(r.takeWhile is_space_char).isEmpty
  | [] => false

/-- The lookahead `(?=[\*\-]\s+|$)` of the bullet pattern. -/
def look_bullet (l : List Char) : Bool :=
  bullet_marker l || l.isEmpty || l = ['\n']

/-- Match `[\*\-]\s+(.*?)(?=[\*\-]\s+|$)` at this position. -/
def match_bullet_at (l : List Char) : Option (List Char × Nat) :=
  match l with
  | c :: r1 =>
    if c = '*' || c = '-' then
      let ws := r1.takeWhile is_space_char
      if ws.isEmpty then none
      else
        match scan_capture look_bullet (r1.drop ws.length) with
        | none => none
        | some cap => some (cap, 1 + ws.length + cap.length)
    else none
  | [] => none

/-- `re.findall` for the bullet pattern. -/
def findall_bullet (l : List Char) : List (List Char) :=
  findall_go match_bullet_at l.length l

/-- `re.split(r'(?<=[.!?])\s+', content)`: split on maximal whitespace runs
immediately preceded by `.`, `!` or `?`.  The second argument is the current
piece, reversed. -/
def sent_split_go : List Char → List Char → List (List Char)
  | [], cur => [cur.reverse]
  | c :: rest, cur =>
    if is_space_char c && (match cur with
        | p :: _ => p = '.' || p = '!' || p = '?'
        | [] => false) then
      cur.reverse :: sent_split_go (rest.dropWhile is_space_char) []
    else sent_split_go rest (c :: cur)
termination_by l _ => l.length
decreasing_by
  all_goals simp_all
  have h := (List.dropWhile_suffix (l := rest) is_space_char).length_le
  omega

/-- The sentence-splitting fallback of `_extract_steps`. -/
def py_sent_split (l : List Char) : List (List Char) := sent_split_go l []

/-- `ResponseGenerator._extract_steps`. -/
def extract_steps (content : String) : List String :=
  let numbered_steps := findall_num content.toList
  if !numbered_steps.isEmpty then numbered_steps.map (fun s => py_strip (String.mk s))
  else
    let bullet_steps := findall_bullet content.toList
    if !bullet_steps.isEmpty then bullet_steps.map (fun s => py_strip (String.mk s))
    else
      ((py_sent_split content.toList).map (fun s => py_strip (String.mk s))).filter
        (fun s => 20 < s.length)

/-- `ResponseGenerator._format_source_reference` (the pipeline's metadata
always carries the `title` and `url` keys, so `dict.get` never falls back to
its defaults; `if url:` is the empty-string test). -/
def format_source_reference (metadata : Metadata) : String :=
  let platform := py_capitalize metadata.platform
  let title := metadata.title
  let url := metadata.url
  if url ≠ "" then "Source: " ++ platform ++ " - [" ++ title ++ "](" ++ url ++ ")"
  else "Source: " ++ platform ++ " - " ++ title

/-- The answer path of `ResponseGenerator.generate_regular_response` (the
`error` / `irrelevant` / `no_results` branches each return their carried
message verbatim and are orthogonal to the claims). -/
def generate_regular_answer (results : List ScoredResult) (cdp : Option String)
    (query_type : String) : String :=
  match results with
  | [] => "I couldn't find specific information to answer your question. Could you try rephrasing or asking a different question?"
  | top_result :: rest =>
    let cdp_name := match cdp with
      | some c => if c = "" then "the CDP" else py_capitalize c
      | none => "the CDP"
    let content := top_result.content
    let response_text :=
      if query_type = "how-to" then
        let steps := extract_steps content
        if !steps.isEmpty && 2 ≤ steps.length then
          let steps_text := py_join "\n"
            ((steps.enum).map (fun p => toString (p.1 + 1) ++ ". " ++ p.2))
          "Here's how to do that in " ++ cdp_name ++ ":\n\n" ++ steps_text
        else
          "Here's information on how to do that in " ++ cdp_name ++ ":\n\n" ++ content
      else
        "Here's information about that from " ++ cdp_name ++ ":\n\n" ++ content
    let response_text := response_text ++ "\n\n" ++ format_source_reference top_result.metadata
    if rest.isEmpty then response_text
    else
      let additional_info := "I found some additional information that might be helpful:\n\n" ++
        str_concat (((rest.take 2).enum).map (fun p =>
          "**Additional Information " ++ toString (p.1 + 1) ++ "**:\n" ++
          py_truncate 200 p.2.content ++ "\n\n" ++
          format_source_reference p.2.metadata ++ "\n\n"))
      response_text ++ "\n\n" ++ additional_info

/-- The all-empty apology of `generate_comparison_response`. -/
def comparison_apology : String :=
  "I couldn't find specific information to compare the CDP platforms based on your question. Could you try asking a more specific comparison question?"

/-- `analysis.get("feature", "this feature")` followed by f-string
interpolation: the comparison analysis dict always carries the `feature`
key, so a missing feature is the stored `None`, which the f-string renders
as the text `None` (the `"this feature"` default would fire only for an
analysis dict without the key, which the pipeline never builds). -/
def feature_text (feature : Option String) : String :=
  match feature with
  | some f => f
  | none => "None"

/-- One platform section of the comparison response. -/
def cdp_section (cdp : String) (top_result : ScoredResult) : String :=
  "**" ++ py_capitalize cdp ++ "**:\n" ++ py_truncate 300 top_result.content ++ "\n\n" ++
    format_source_reference top_result.metadata ++ "\n\n"

/-- `ResponseGenerator.generate_comparison_response` on comparison result
dicts (the `no_results` branch returns its carried message verbatim and is
orthogonal to the claims).  Note the `continue` on platforms with an empty
result list. -/
def generate_comparison_response (results : List (String × List ScoredResult))
    (feature : Option String) : String :=
  if results.isEmpty || !(results.any (fun p => !p.2.isEmpty)) then comparison_apology
  else
    let ftext := feature_text feature
    let response_text := "Here's a comparison of how different CDPs handle " ++ ftext ++ ":\n\n"
    let response_text := results.foldl (fun acc p =>
      match p.2 with
      | [] => acc
      | top_result :: _ => acc ++ cdp_section p.1 top_result) response_text
    let response_text := response_text ++ "\n**Summary**:\n" ++
      "Each CDP platform has its own approach to " ++ ftext ++ ". "
    response_text ++
      (if 2 ≤ (results.filter (fun p => !p.2.isEmpty)).length then
        "Consider your specific requirements when choosing between them."
      else
        "I could only find detailed information for some of the platforms. Consider checking the official documentation for more details.")

/-! ## Specification-side predicates and concrete fixtures -/

/-- Chunk shape invariant established by the chunk loop: either the
sentences of the chunk total at most `chunk_size` characters (joining
spaces not counted — the loop's `current_size` never counts them), or the
chunk is the carried overlap block (total sentence length at most
`chunk_overlap`, possibly empty) extended by one sentence. -/
def chunk_ok (chunk_size chunk_overlap : Nat) (c : List String) : Prop :=
  sum_len c ≤ chunk_size ∨ ∃ ov s, c = ov ++ [s] ∧ sum_len ov ≤ chunk_overlap

/-- `Chained chunk_overlap pre rem chunks`: the chunk sequence `chunks`
covers the sentence sequence `pre ++ rem`, where `pre` is the overlap block
carried into the first chunk.  Constructors encode C6 exactly: every chunk
is a contiguous block of sentences; each overlap block `ov` is a trailing
block of the chunk it closes (`ov <:+ pre ++ rest₁`), of total sentence
length at most `chunk_overlap`, copied verbatim to the head of the next
chunk (it is the `pre` of the remaining chain); and the non-overlap parts
`rest₁` of the chunks concatenate, in order and without loss or
duplication, to the covered sentence sequence. -/
inductive Chained (chunk_overlap : Nat) : List String → List String → List (List String) → Prop
  | last (pre rest : List String) : Chained chunk_overlap pre rest [pre ++ rest]
  | step (pre rest₁ rest₂ ov : List String) (chunks : List (List String))
      (hov : ov <:+ pre ++ rest₁) (hlen : sum_len ov ≤ chunk_overlap)
      (h : Chained chunk_overlap ov rest₂ chunks) :
      Chained chunk_overlap pre (rest₁ ++ rest₂) ((pre ++ rest₁) :: chunks)

/-- One rendered platform section (empty for a platform with no results);
the specification-side view of the comparison-response body. -/
def section_of (p : String × List ScoredResult) : String :=
  match p.2 with
  | [] => ""
  | top_result :: _ => cdp_section p.1 top_result

/-- Fixture metadata for concrete counterexamples and witnesses. -/
def meta_seg : Metadata :=
  ⟨"segment", "Audience Guide", "http://docs.example/seg", [], "how-to"⟩

/-- A retrieval result whose distance is exactly the similarity threshold. -/
def r_threshold : RetrievalResult :=
  ⟨"Segment docs page", meta_seg, "id0", some 0.7⟩

/-- An index stub returning only `r_threshold`. -/
def store_threshold : Store := fun _ _ _ => [r_threshold]

/-- A retrieval result strictly inside the similarity threshold. -/
def r_keep : RetrievalResult :=
  ⟨"Segment docs page", meta_seg, "id1", some 0.5⟩

/-- An index stub returning only `r_keep`. -/
def store_keep : Store := fun _ _ _ => [r_keep]

/-- Fixture scored result for the comparison-response counterexample. -/
def sr_seg : ScoredResult :=
  ⟨"Segment handles audiences well.", meta_seg, "id2", some 0.2, 1, 1, 1⟩

/-- Content with exactly three numbered steps, one per line. -/
def content_c8 : String := "1. Do this first\n2. Then do this\n3. Finally do this"

/-- Fixture scored result whose content is `content_c8`. -/
def r_c8 : ScoredResult := ⟨content_c8, meta_seg, "id3", some 0.2, 1, 1, 1⟩

/-- Content with three numbered steps on a single line. -/
def content_c8w : String := "1. Install the SDK. 2. Configure the source. 3. Start tracking."

/-- Fixture scored result whose content is `content_c8w`. -/
def r_c8w : ScoredResult := ⟨content_c8w, meta_seg, "id4", some 0.2, 1, 1, 1⟩

/-- Fixtures for the dedup witness: two results sharing their first 100
content characters and one below the score threshold. -/
def sr_a : ScoredResult := ⟨"duplicate content", meta_seg, "a", none, 0, 0, 0.9⟩

/-- Lower-scored duplicate of `sr_a`. -/
def sr_b : ScoredResult := ⟨"duplicate content", meta_seg, "b", none, 0, 0, 0.5⟩

/-- A result below the 0.3 score threshold. -/
def sr_c : ScoredResult := ⟨"other content", meta_seg, "c", none, 0, 0, 0.2⟩

/-- Fixture document for the chunk-metadata witness. -/
def doc_w : DocumentData :=
  ⟨"segment", "How to Guide", "http://docs.example/guide", "Alpha. Beta.",
    [⟨1, "Top"⟩, ⟨2, "Sub"⟩]⟩

/-- Fixture sentence tokenizer for `doc_w`. -/
def tok_w : String → List String := fun _ => ["Alpha.", "Beta."]

/-! ## Helper lemmas -/

theorem distance_keep_iff (r : RetrievalResult) :
    distance_keep r = true ↔
      r.distance = none ∨ ∃ d, r.distance = some d ∧ d < SIMILARITY_THRESHOLD := by
  cases h : r.distance with
  | none => simp [distance_keep, h]
  | some d => simp [distance_keep, h]

/-! ## Claim C2 -/

/-- C2: for every scored result,
`final_score = 0.5 * distance_score + 0.3 * content_score + 0.2 * metadata_score`
with `distance_score = 1.0` for a null distance and `1.0 - min(1.0, d)`
otherwise; a result with distance 0, content score 1 and metadata score 1
gets final score 1; and a null distance scores identically to distance 0 on
the distance term (so never below it). -/
theorem C2_final_score_formula :
    calculate_final_score (some 0) 1 1 = 1
    ∧ (∀ c m : ℚ, calculate_final_score none c m = calculate_final_score (some 0) c m)
    ∧ (∀ d c m : ℚ, calculate_final_score (some d) c m
        = 0.5 * (1 - min 1 d) + 0.3 * c + 0.2 * m)
    ∧ (∀ c m : ℚ, calculate_final_score none c m = 0.5 * 1 + 0.3 * c + 0.2 * m)
    ∧ distance_score none = 1
    ∧ (∀ d : ℚ, distance_score (some d) = 1 - min 1 d)
    ∧ ∀ (query : String) (x : RetrievalResult),
        (score_result query x).final_score
          = calculate_final_score x.distance (score_result query x).content_score
              (score_result query x).metadata_score
          ∧ (score_result query x).distance = x.distance := by
  refine ⟨?_, fun c m => ?_, fun d c m => rfl, fun c m => rfl, rfl, fun d => rfl,
    fun query x => ⟨rfl, rfl⟩⟩
  · norm_num [calculate_final_score, distance_score]
  · norm_num [calculate_final_score, distance_score]

/-! ## Claim C1 -/

/-- C1 counterexample: on a relevant query, a result whose distance is
exactly `SIMILARITY_THRESHOLD` (so it "does not exceed" the threshold) is
nevertheless dropped by `retrieve` — the cutoff is strict. -/
theorem C1_counterexample :
    (retrieve store_threshold "segment data" 5).1.1 = []
    ∧ r_threshold.distance = some SIMILARITY_THRESHOLD
    ∧ (retrieve store_threshold "segment data" 5).1.2.is_relevant = true := by
  have h1 : is_relevant_query "segment data" = true := by decide
  have hk : distance_keep r_threshold = false := by
    simp only [distance_keep, r_threshold]
    norm_num [SIMILARITY_THRESHOLD]
  refine ⟨?_, rfl, ?_⟩
  · simp [retrieve, h1, store_threshold, List.filter, hk]
  · simp [retrieve, h1]

/-- C1 (amended): for every relevant query, `retrieve` keeps exactly the
index results whose distance is null or **strictly less than**
`SIMILARITY_THRESHOLD` (a result with distance ≥ 0.7, including exactly
0.7, is dropped), and `retrieve_for_comparison` applies the same strict
per-result cutoff independently for each platform. -/
theorem C1_distance_filter_strict :
    ∀ (store : Store) (query : String) (top_k : Nat) (feature : Option String),
      (is_relevant_query query = true →
        ∀ r : RetrievalResult,
          r ∈ (retrieve store query top_k).1.1 ↔
            r ∈ store query top_k (extract_cdp_from_query query) ∧
              (r.distance = none ∨ ∃ d, r.distance = some d ∧ d < SIMILARITY_THRESHOLD))
      ∧ ∀ p ∈ (retrieve_for_comparison store query feature top_k).1.1,
          ∀ r : RetrievalResult,
            r ∈ p.2 ↔
              r ∈ store (match feature with | some f => f | none => query) top_k (some p.1) ∧
                (r.distance = none ∨ ∃ d, r.distance = some d ∧ d < SIMILARITY_THRESHOLD) := by
  intro store query top_k feature
  constructor
  · intro h r
    simp only [retrieve, h, Bool.not_true, Bool.false_eq_true, if_false, List.mem_filter,
      distance_keep_iff]
  · intro p hp r
    simp only [retrieve_for_comparison, List.mem_map] at hp
    obtain ⟨cdp, hc, rfl⟩ := hp
    simp only [List.mem_filter, distance_keep_iff]

/-- C1 witness: a result with distance 0.5 on a relevant query is kept. -/
theorem C1_distance_filter_strict_witness :
    r_keep ∈ (retrieve store_keep "segment data" 5).1.1 := by
  have h := (C1_distance_filter_strict store_keep "segment data" 5 none).1 (by decide) r_keep
  exact h.mpr ⟨List.mem_singleton.mpr rfl, Or.inr ⟨0.5, rfl, by norm_num [SIMILARITY_THRESHOLD]⟩⟩

/-! ## Claim C4 -/

/-- C4: a query containing no term of the relevance vocabulary yields the
empty result list, an analysis marked not relevant, and zero index
invocations; a query containing at least one vocabulary term is marked
relevant. -/
theorem C4_relevance_gate :
    ∀ (store : Store) (query : String) (top_k : Nat),
      ((∀ term ∈ relevant_terms, str_contains (py_lower query) term = false) →
        retrieve store query top_k =
          (([], ⟨extract_cdp_from_query query, classify_query_type query, false⟩), 0))
      ∧ ((∃ term ∈ relevant_terms, str_contains (py_lower query) term = true) →
        (retrieve store query top_k).1.2.is_relevant = true) := by
  intro store query top_k
  constructor
  · intro h
    have hrel : is_relevant_query query = false := by
      simp only [is_relevant_query, List.any_eq_false]
      intro term ht
      simp [h term ht]
    simp [retrieve, hrel]
  · intro h
    have hrel : is_relevant_query query = true := by
      simp only [is_relevant_query, List.any_eq_true]
      obtain ⟨term, ht, hc⟩ := h
      exact ⟨term, ht, hc⟩
    simp [retrieve, hrel]

/-- C4 witness: the spec's sample irrelevant query short-circuits with no
index call; a query mentioning a platform is marked relevant. -/
theorem C4_relevance_gate_witness :
    retrieve store_keep "what's the weather today" 5 = (([], ⟨none, "general", false⟩), 0)
    ∧ (retrieve store_keep "segment data" 5).1.2.is_relevant = true := by
  constructor
  · exact ((C4_relevance_gate store_keep "what's the weather today" 5).1 (by decide)).trans
      (by decide)
  · exact (C4_relevance_gate store_keep "segment data" 5).2 ⟨"segment", by decide, by decide⟩

/-! ## Claim C9 -/

/-- C9: comparison patterns are checked before how-to patterns (a query
matching both classifies as comparison), unmatched queries classify as
general, and the two sample classifications hold, including the extracted
platforms. -/
theorem C9_classification_precedence :
    (∀ query : String, comparison_match (py_lower query) = true →
      classify_query_type query = "comparison")
    ∧ (∀ query : String, comparison_match (py_lower query) = false →
        how_to_match (py_lower query) = true → classify_query_type query = "how-to")
    ∧ (∀ query : String, comparison_match (py_lower query) = false →
        how_to_match (py_lower query) = false → classify_query_type query = "general")
    ∧ classify_query_type "compare segment and mparticle" = "comparison"
    ∧ extract_cdps_for_comparison "compare segment and mparticle" = ["segment", "mparticle"]
    ∧ classify_query_type "how do I set up a source in segment" = "how-to"
    ∧ extract_cdp_from_query "how do I set up a source in segment" = some "segment" := by
  refine ⟨fun q h => by simp [classify_query_type, h],
    fun q h1 h2 => by simp [classify_query_type, h1, h2],
    fun q h1 h2 => by simp [classify_query_type, h1, h2],
    by decide, by decide, by decide, by decide⟩

/-- C9 witness: a query matching both a comparison pattern and a how-to
pattern is classified as comparison. -/
theorem C9_classification_precedence_witness :
    classify_query_type "compare how to set up tracking" = "comparison"
    ∧ comparison_match (py_lower "compare how to set up tracking") = true
    ∧ how_to_match (py_lower "compare how to set up tracking") = true :=
  ⟨C9_classification_precedence.1 _ (by decide), by decide, by decide⟩

/-! ## Claim C3 -/

theorem dedup_by_key_subset {seen : List String} {l : List ScoredResult} {r : ScoredResult}
    (h : r ∈ dedup_by_key seen l) : r ∈ l := by
  induction l generalizing seen with
  | nil => simp [dedup_by_key] at h
  | cons x rest ih =>
    by_cases hx : content_key x ∈ seen
    · rw [dedup_by_key, if_pos hx] at h
      exact List.mem_cons_of_mem _ (ih h)
    · rw [dedup_by_key, if_neg hx] at h
      rcases List.mem_cons.mp h with rfl | h'
      · exact List.mem_cons_self _ _
      · exact List.mem_cons_of_mem _ (ih h')

theorem dedup_by_key_not_seen {seen : List String} {l : List ScoredResult} {r : ScoredResult}
    (h : r ∈ dedup_by_key seen l) : content_key r ∉ seen := by
  induction l generalizing seen with
  | nil => simp [dedup_by_key] at h
  | cons x rest ih =>
    by_cases hx : content_key x ∈ seen
    · rw [dedup_by_key, if_pos hx] at h
      exact ih h
    · rw [dedup_by_key, if_neg hx] at h
      rcases List.mem_cons.mp h with rfl | h'
      · exact hx
      · intro hs
        exact ih h' (List.mem_cons_of_mem _ hs)

theorem dedup_by_key_keys_nodup (seen : List String) (l : List ScoredResult) :
    ((dedup_by_key seen l).map content_key).Nodup := by
  induction l generalizing seen with
  | nil => simp [dedup_by_key]
  | cons x rest ih =>
    by_cases hx : content_key x ∈ seen
    · rw [dedup_by_key, if_pos hx]
      exact ih seen
    · rw [dedup_by_key, if_neg hx]
      simp only [List.map_cons, List.nodup_cons]
      refine ⟨?_, ih _⟩
      intro hmem
      obtain ⟨r, hr, hkey⟩ := List.mem_map.mp hmem
      exact dedup_by_key_not_seen hr (by rw [hkey]; exact List.mem_cons_self _ _)

theorem dedup_by_key_max {seen : List String} {l : List ScoredResult}
    (hs : List.Pairwise (fun a b => b.final_score ≤ a.final_score) l) :
    ∀ r ∈ dedup_by_key seen l, ∀ t ∈ l, content_key t = content_key r →
      content_key t ∉ seen → t.final_score ≤ r.final_score := by
  induction l generalizing seen with
  | nil => intro r hr; simp [dedup_by_key] at hr
  | cons x rest ih =>
    have hs' := List.pairwise_cons.mp hs
    intro r hr t ht hkey hnotseen
    by_cases hx : content_key x ∈ seen
    · rw [dedup_by_key, if_pos hx] at hr
      rcases List.mem_cons.mp ht with rfl | ht'
      · exact absurd hx hnotseen
      · exact ih hs'.2 r hr t ht' hkey hnotseen
    · rw [dedup_by_key, if_neg hx] at hr
      rcases List.mem_cons.mp hr with rfl | hr'
      · rcases List.mem_cons.mp ht with rfl | ht'
        · exact le_refl _
        · exact hs'.1 t ht'
      · rcases List.mem_cons.mp ht with rfl | ht'
        · exact absurd (hkey ▸ List.mem_cons_self _ _) (dedup_by_key_not_seen hr')
        · exact ih hs'.2 r hr' t ht' hkey
            (fun hmem => dedup_by_key_not_seen hr' (hkey ▸ hmem))

/-- C3: on an input sorted descending by `final_score`, `filter_results`
returns only results with `final_score ≥ 0.3`, never two results sharing
their first 100 characters of content, and every kept result's score is at
least that of every input result sharing its first 100 characters. -/
theorem C3_filter_results :
    ∀ results : List ScoredResult,
      List.Pairwise (fun a b => b.final_score ≤ a.final_score) results →
      (∀ r ∈ filter_results results, (0.3 : ℚ) ≤ r.final_score)
      ∧ ((filter_results results).map content_key).Nodup
      ∧ ∀ r ∈ filter_results results, ∀ t ∈ results,
          content_key t = content_key r → t.final_score ≤ r.final_score := by
  intro results hs
  by_cases hres : results.isEmpty
  · rw [List.isEmpty_iff] at hres
    subst hres
    refine ⟨?_, ?_, ?_⟩ <;> simp [filter_results]
  · have hfr : filter_results results
        = dedup_by_key [] (results.filter (fun r => (0.3 : ℚ) ≤ r.final_score)) := by
      simp [filter_results, hres]
    have hthr : ∀ r ∈ filter_results results, (0.3 : ℚ) ≤ r.final_score := by
      intro r hr
      rw [hfr] at hr
      have hmem := dedup_by_key_subset hr
      have := (List.mem_filter.mp hmem).2
      exact of_decide_eq_true this
    refine ⟨hthr, ?_, ?_⟩
    · rw [hfr]
      exact dedup_by_key_keys_nodup _ _
    · intro r hr t ht hkey
      by_cases hth : (0.3 : ℚ) ≤ t.final_score
      · have ht' : t ∈ results.filter (fun r => (0.3 : ℚ) ≤ r.final_score) :=
          List.mem_filter.mpr ⟨ht, by simp [hth]⟩
        rw [hfr] at hr
        exact dedup_by_key_max (hs.filter _) r hr t ht' hkey (by simp)
      · have := hthr r hr
        have hlt := not_le.mp hth
        linarith

/-- C3 witness: concrete sorted input with a duplicate pair and a
below-threshold result; the dedup keys of the output are distinct. -/
theorem C3_filter_results_witness :
    ((filter_results [sr_a, sr_b, sr_c]).map content_key).Nodup :=
  (C3_filter_results [sr_a, sr_b, sr_c]
    (by norm_num [List.pairwise_cons, sr_a, sr_b, sr_c])).2.1

/-! ## Claim C10 -/

theorem heading_fold_length :
    ∀ (hs : List Heading) (lvl : Int) (ch : List String),
      (heading_fold hs lvl ch).length = hs.length := by
  intro hs
  induction hs with
  | nil => intro lvl ch; rfl
  | cons h rest ih =>
    intro lvl ch
    simp [heading_fold, ih]

/-- C10: every chunk produced from one document carries the same metadata
record — the one computed once by `extract_metadata`, whose
`heading_hierarchy` covers every heading of the whole document (one
breadcrumb per heading), independent of the chunk's slice of content. -/
theorem C10_shared_metadata :
    ∀ (tokenize : String → List String) (data : DocumentData) (cs co : Nat),
      (∀ c ∈ prepare_document_chunks tokenize data cs co, c.metadata = extract_metadata data)
      ∧ (extract_metadata data).heading_hierarchy.length = data.headings.length := by
  intro tokenize data cs co
  constructor
  · intro c hc
    simp only [prepare_document_chunks, List.mem_map] at hc
    obtain ⟨p, hp, rfl⟩ := hc
    rfl
  · simp [extract_metadata, heading_fold_length]

/-- C10 witness: the concrete fixture document's single chunk carries the
document-wide metadata. -/
theorem C10_shared_metadata_witness :
    (⟨"Alpha. Beta.", "segment_0", extract_metadata doc_w⟩ : ChunkRecord).metadata
      = extract_metadata doc_w :=
  (C10_shared_metadata tok_w doc_w 1000 200).1 _ (by decide)

/-! ## Claim C5 -/

theorem sum_len_append (a b : List String) : sum_len (a ++ b) = sum_len a + sum_len b := by
  simp [sum_len]

theorem sum_len_reverse (a : List String) : sum_len a.reverse = sum_len a := by
  simp [sum_len, List.sum_reverse]

theorem take_overlap_rev_spec (co : Nat) :
    ∀ (l acc : List String) (n : Nat),
      ∃ t, t <+: l ∧ (take_overlap_rev co l acc n).1 = t.reverse ++ acc
        ∧ (take_overlap_rev co l acc n).2 = n + sum_len t := by
  intro l
  induction l with
  | nil =>
    intro acc n
    exact ⟨[], List.nil_prefix, rfl, by simp [take_overlap_rev, sum_len]⟩
  | cons s rest ih =>
    intro acc n
    by_cases h : n + s.length ≤ co
    · obtain ⟨t, ht, h1, h2⟩ := ih (s :: acc) (n + s.length)
      refine ⟨s :: t, List.cons_prefix_cons.mpr ⟨rfl, ht⟩, ?_, ?_⟩
      · rw [take_overlap_rev, if_pos h, h1]
        simp
      · rw [take_overlap_rev, if_pos h, h2]
        simp [sum_len]
        omega
    · exact ⟨[], List.nil_prefix, by rw [take_overlap_rev, if_neg h]; simp,
        by rw [take_overlap_rev, if_neg h]; simp [sum_len]⟩

theorem take_overlap_rev_bound (co : Nat) :
    ∀ (l acc : List String) (n : Nat), n ≤ co → (take_overlap_rev co l acc n).2 ≤ co := by
  intro l
  induction l with
  | nil => intro acc n h; exact h
  | cons s rest ih =>
    intro acc n h
    by_cases hc : n + s.length ≤ co
    · rw [take_overlap_rev, if_pos hc]
      exact ih _ _ hc
    · rw [take_overlap_rev, if_neg hc]
      exact h

theorem take_overlap_spec (co : Nat) (current : List String) :
    (take_overlap co current).1 <:+ current
    ∧ sum_len (take_overlap co current).1 = (take_overlap co current).2
    ∧ (take_overlap co current).2 ≤ co := by
  obtain ⟨t, ht, h1, h2⟩ := take_overlap_rev_spec co current.reverse [] 0
  obtain ⟨u, hu⟩ := ht
  refine ⟨?_, ?_, ?_⟩
  · rw [take_overlap, h1, List.append_nil]
    refine ⟨u.reverse, ?_⟩
    rw [← List.reverse_reverse current, ← hu, List.reverse_append]
  · rw [take_overlap, h1, h2, List.append_nil, sum_len_reverse]
    simp
  · exact take_overlap_rev_bound co current.reverse [] 0 (Nat.zero_le co)

theorem chunk_go_ok (cs co : Nat) :
    ∀ (sentences current : List String) (size : Nat),
      size = sum_len current → chunk_ok cs co current →
      ∀ c ∈ chunk_go cs co sentences current size, c ≠ [] ∧ chunk_ok cs co c := by
  intro sentences
  induction sentences with
  | nil =>
    intro current size hsize hok c hc
    by_cases hcur : current.isEmpty
    · simp [chunk_go, hcur] at hc
    · rw [chunk_go, if_neg (by simp [hcur])] at hc
      rcases List.mem_singleton.mp hc with rfl
      exact ⟨by simpa using hcur, hok⟩
  | cons s rest ih =>
    intro current size hsize hok c hc
    by_cases hcond : cs < size + s.length ∧ current ≠ []
    · rw [chunk_go, if_pos hcond] at hc
      rcases List.mem_cons.mp hc with rfl | hc'
      · exact ⟨hcond.2, hok⟩
      · obtain ⟨hsuf, heq, hle⟩ := take_overlap_spec co current
        refine ih ((take_overlap co current).1 ++ [s]) ((take_overlap co current).2 + s.length)
          ?_ ?_ c hc'
        · rw [sum_len_append, heq]
          simp [sum_len]
        · exact Or.inr ⟨(take_overlap co current).1, s, rfl, heq ▸ hle⟩
    · rw [chunk_go, if_neg hcond] at hc
      refine ih (current ++ [s]) (size + s.length) ?_ ?_ c hc
      · rw [sum_len_append, hsize]
        simp [sum_len]
      · by_cases hcur : current = []
        · subst hcur
          exact Or.inr ⟨[], s, rfl, by simp [sum_len]⟩
        · have hsz : size + s.length ≤ cs := by
            rcases not_and_or.mp hcond with h | h
            · omega
            · exact absurd hcur h
          left
          rw [sum_len_append, ← hsize]
          simpa [sum_len] using hsz

theorem py_join_foldl_length (sep : String) :
    ∀ (rest : List String) (acc : String),
      (rest.foldl (fun a x => a ++ sep ++ x) acc).length
        = acc.length + (rest.map (fun x => sep.length + x.length)).sum := by
  intro rest
  induction rest with
  | nil => intro acc; simp
  | cons x xs ih =>
    intro acc
    rw [List.foldl_cons, ih]
    simp [String.length_append]
    omega

theorem py_join_length :
    ∀ (c : List String), c ≠ [] → (py_join " " c).length = sum_len c + (c.length - 1) := by
  intro c hc
  match c with
  | s :: rest =>
    rw [py_join, py_join_foldl_length]
    have hone : (" " : String).length = 1 := rfl
    have hsum : ∀ l : List String,
        (l.map (fun x => (" " : String).length + x.length)).sum = l.length + sum_len l := by
      intro l
      induction l with
      | nil => simp [sum_len]
      | cons y ys ihy =>
        simp [sum_len, hone] at ihy ⊢
        omega
    rw [hsum]
    simp [sum_len]
    omega

/-- C5 counterexample: with `chunk_size = 12` the two sentences
`"Hello."` and `"World."` (six characters each) are packed into one chunk —
the source's size counter ignores the joining space — so the produced chunk
`"Hello. World."` has 13 > 12 characters while being two sentences, neither
of which exceeds `chunk_size` on its own. -/
theorem C5_counterexample :
    chunk_sentence_lists 12 0 ["Hello.", "World."] = [["Hello.", "World."]]
    ∧ split_text_into_chunks ["Hello.", "World."] 12 0 = ["Hello. World."]
    ∧ 12 < ("Hello. World.").length
    ∧ ("Hello.").length ≤ 12 ∧ ("World.").length ≤ 12 := by
  exact ⟨by decide, by decide, by decide, by decide, by decide⟩

/-- C5 (amended): every chunk is the space-join of its sentence list, whose
total sentence length (excluding the joining spaces, which the source's
size counter never counts) is at most `chunk_size` — hence the chunk's
content length is at most `chunk_size` plus one space per sentence
boundary — except when the chunk is the overlap block carried from the
previous chunk (total sentence length at most `chunk_overlap`, possibly
empty) extended by a single sentence; in particular a lone sentence longer
than `chunk_size` forms its own chunk, unsplit. -/
theorem C5_chunk_size_bound :
    ∀ (cs co : Nat) (sentences : List String),
      ∀ chunk ∈ split_text_into_chunks sentences cs co,
        ∃ c, c ≠ [] ∧ chunk = py_join " " c
          ∧ chunk.length = sum_len c + (c.length - 1)
          ∧ (sum_len c ≤ cs ∨ ∃ ov s, c = ov ++ [s] ∧ sum_len ov ≤ co) := by
  intro cs co sentences chunk hchunk
  simp only [split_text_into_chunks, List.mem_map] at hchunk
  obtain ⟨c, hc, rfl⟩ := hchunk
  have hok := chunk_go_ok cs co sentences [] 0 (by simp [sum_len])
    (Or.inl (by simp [sum_len])) c hc
  exact ⟨c, hok.1, rfl, py_join_length c hok.1, hok.2⟩

/-- C5 witness: the size-bound disjunction instantiated at the
counterexample input's produced chunk. -/
theorem C5_chunk_size_bound_witness :
    ∃ c, c ≠ [] ∧ "Hello. World." = py_join " " c
      ∧ ("Hello. World.").length = sum_len c + (c.length - 1)
      ∧ (sum_len c ≤ 12 ∨ ∃ ov s, c = ov ++ [s] ∧ sum_len ov ≤ 0) :=
  C5_chunk_size_bound 12 0 ["Hello.", "World."] "Hello. World." (by decide)

/-! ## Claim C6 -/

theorem chunk_go_chained (cs co : Nat) :
    ∀ (sentences pre mid : List String) (size : Nat), pre ++ mid ≠ [] →
      Chained co pre (mid ++ sentences) (chunk_go cs co sentences (pre ++ mid) size) := by
  intro sentences
  induction sentences with
  | nil =>
    intro pre mid size hne
    rw [chunk_go, if_neg (by simpa using hne), List.append_nil]
    exact Chained.last pre mid
  | cons s rest ih =>
    intro pre mid size hne
    by_cases hcond : cs < size + s.length ∧ pre ++ mid ≠ []
    · rw [chunk_go, if_pos hcond]
      obtain ⟨hsuf, heq, hle⟩ := take_overlap_spec co (pre ++ mid)
      have hchain := ih (take_overlap co (pre ++ mid)).1 [s]
        ((take_overlap co (pre ++ mid)).2 + s.length) (by simp)
      exact Chained.step pre mid (s :: rest) _ _ hsuf (by rw [heq]; exact hle) hchain
    · rw [chunk_go, if_neg hcond]
      have hr := ih pre (mid ++ [s]) (size + s.length) (by simp)
      simpa [List.append_assoc] using hr

/-- C6 counterexample: with `chunk_size = 15`, `chunk_overlap = 10`, the
chunks are `"aaaaa bbbbb ccccc"` and `"bbbbb ccccc ddddd"`: the copied
trailing sentence block is `["bbbbb", "ccccc"]` (a trailing block of chunk
1 and the verbatim head of chunk 2, sentence lengths summing to the allowed
10), but the copied **text** `"bbbbb ccccc"` has 11 > `chunk_overlap`
characters; no shorter block accounts for the duplication — `"ccccc"` and
the whole of chunk 1 are not prefixes of chunk 2, and with an empty block
the sentence `"bbbbb"` would be duplicated outside any overlap region. -/
theorem C6_counterexample :
    chunk_sentence_lists 15 10 ["aaaaa", "bbbbb", "ccccc", "ddddd"]
      = [["aaaaa", "bbbbb", "ccccc"], ["bbbbb", "ccccc", "ddddd"]]
    ∧ split_text_into_chunks ["aaaaa", "bbbbb", "ccccc", "ddddd"] 15 10
      = ["aaaaa bbbbb ccccc", "bbbbb ccccc ddddd"]
    ∧ ["bbbbb", "ccccc"] <:+ ["aaaaa", "bbbbb", "ccccc"]
    ∧ ["bbbbb", "ccccc"] <+: ["bbbbb", "ccccc", "ddddd"]
    ∧ sum_len ["bbbbb", "ccccc"] = 10
    ∧ (py_join " " ["bbbbb", "ccccc"]).length = 11
    ∧ str_starts_with "bbbbb ccccc ddddd" "bbbbb ccccc" = true
    ∧ str_starts_with "bbbbb ccccc ddddd" "ccccc" = false
    ∧ str_starts_with "bbbbb ccccc ddddd" "aaaaa bbbbb ccccc" = false
    ∧ "bbbbb" ∈ ["aaaaa", "bbbbb", "ccccc"] ∧ "bbbbb" ∈ ["bbbbb", "ccccc", "ddddd"] := by
  refine ⟨by decide, by decide, ⟨["aaaaa"], rfl⟩, ⟨["ddddd"], rfl⟩, by decide, by decide,
    by decide, by decide, by decide, by decide, by decide⟩

/-- C6 (amended): for every nonempty sentence sequence, the produced chunk
sequence is `Chained`: every chunk is a contiguous run of sentences, each
consecutive pair overlaps exactly in a trailing sentence block of the
earlier chunk copied verbatim to the head of the next, the copied block's
**total sentence length** is at most `chunk_overlap` (the copied text
itself additionally contains one joining space per block-internal sentence
boundary, so it may reach `chunk_overlap` plus block size − 1 characters),
and the chunks with the copied blocks removed reconstruct the original
sentence sequence with nothing dropped or duplicated; the text chunks are
exactly the space-joins of these sentence runs. -/
theorem C6_overlap_chain :
    ∀ (cs co : Nat) (s : String) (rest : List String),
      Chained co [] (s :: rest) (chunk_sentence_lists cs co (s :: rest))
      ∧ ∀ sentences : List String,
          split_text_into_chunks sentences cs co
            = (chunk_sentence_lists cs co sentences).map (py_join " ") := by
  intro cs co s rest
  constructor
  · have h0 : chunk_sentence_lists cs co (s :: rest) = chunk_go cs co rest [s] s.length := by
      simp [chunk_sentence_lists, chunk_go]
    rw [h0]
    have h := chunk_go_chained cs co rest [] [s] s.length (by simp)
    simpa using h
  · intro sentences
    rfl

/-! ## Claim C7 -/

theorem comparison_body_eq :
    ∀ (l : List (String × List ScoredResult)) (acc : String),
      l.foldl (fun acc p =>
        match p.2 with
        | [] => acc
        | top_result :: _ => acc ++ cdp_section p.1 top_result) acc
      = acc ++ str_concat ((l.filter (fun p => !p.2.isEmpty)).map section_of) := by
  intro l
  induction l with
  | nil =>
    intro acc
    simp [str_concat]
  | cons p ps ih =>
    intro acc
    obtain ⟨c, rs⟩ := p
    cases rs with
    | nil =>
      rw [List.foldl_cons, ih]
      simp [str_concat]
    | cons top tl =>
      rw [List.foldl_cons, ih]
      simp only [List.filter_cons, List.isEmpty_cons, Bool.not_false, if_true]
      simp [str_concat, section_of, String.append_assoc]

/-- C7 (amended): the comparison processor preserves every platform key in
order (a platform with no surviving results keeps an empty list), and the
assembled comparison text is the feature header followed by one section per
platform **with at least one result**, in dict iteration order — a platform
whose list is empty is skipped entirely, contributing no section and no
placeholder — and a summary whose wording depends on whether at least two
platforms produced results (the "could only find detailed information for
some of the platforms" wording is the sole fallback text). -/
theorem C7_comparison_sections :
    (∀ (cr : List (String × List RetrievalResult)) (q : String) (f : Option String),
      (process_comparison_results cr q f).map Prod.fst = cr.map Prod.fst)
    ∧ ∀ (results : List (String × List ScoredResult)) (feature : Option String),
        results.any (fun p => !p.2.isEmpty) = true →
        generate_comparison_response results feature
          = "Here's a comparison of how different CDPs handle " ++ feature_text feature
            ++ ":\n\n"
            ++ str_concat ((results.filter (fun p => !p.2.isEmpty)).map section_of)
            ++ "\n**Summary**:\n" ++ "Each CDP platform has its own approach to "
            ++ feature_text feature ++ ". "
            ++ (if 2 ≤ (results.filter (fun p => !p.2.isEmpty)).length then
                "Consider your specific requirements when choosing between them."
              else
                "I could only find detailed information for some of the platforms. Consider checking the official documentation for more details.") := by
  constructor
  · intro cr q f
    simp [process_comparison_results]
  · intro results feature hany
    have hne : results.isEmpty = false := by
      cases results with
      | nil => simp at hany
      | cons p ps => rfl
    rw [generate_comparison_response, if_neg (by simp [hne, hany])]
    simp only [comparison_body_eq, String.append_assoc]

set_option maxRecDepth 4000 in
/-- C7 counterexample: platform `"mparticle"` is a key of the comparison
result dict with an empty list, yet the assembled text contains no section
for it — neither its name (in either capitalization) nor any per-platform
"couldn't find" placeholder occurs anywhere in the response. -/
theorem C7_counterexample :
    str_contains (generate_comparison_response
        [("segment", [sr_seg]), ("mparticle", [])] (some "audience creation"))
      "mparticle" = false
    ∧ str_contains (generate_comparison_response
        [("segment", [sr_seg]), ("mparticle", [])] (some "audience creation"))
      "Mparticle" = false
    ∧ str_contains (generate_comparison_response
        [("segment", [sr_seg]), ("mparticle", [])] (some "audience creation"))
      "couldn't find" = false
    ∧ ([("segment", [sr_seg]), ("mparticle", [])].map Prod.fst)
      = ["segment", "mparticle"] := by
  refine ⟨by decide, by decide, by decide, by decide⟩

set_option maxRecDepth 4000 in
/-- C7 witness: the section fold instantiated on a concrete dict with one
populated and one empty platform. -/
theorem C7_comparison_sections_witness :
    generate_comparison_response [("segment", [sr_seg]), ("mparticle", [])]
        (some "audience creation")
      = "Here's a comparison of how different CDPs handle audience creation:\n\n"
        ++ str_concat ([(("segment" : String), [sr_seg])].map section_of)
        ++ "\n**Summary**:\n" ++ "Each CDP platform has its own approach to audience creation. "
        ++ "I could only find detailed information for some of the platforms. Consider checking the official documentation for more details." := by
  have h := C7_comparison_sections.2 [("segment", [sr_seg]), ("mparticle", [])]
    (some "audience creation") (by decide)
  rw [h]
  rfl

/-! ## Claim C8 -/

set_option maxRecDepth 8000 in
/-- C8 counterexample: `content_c8` contains exactly 3 numbered-step
markers (`\d+\.\s+` matches at exactly 3 positions), one per line, yet the
how-to answer is **not** rendered as a numbered-step list with the
`"Here's how to do that in"` prefix: the extraction pattern cannot cross
the newlines, finds a single step, and the response falls back to prose
with the `"Here's information on how to do that in"` prefix. -/
theorem C8_counterexample :
    (List.range content_c8.data.length).countP
        (fun i => num_marker (content_c8.data.drop i)) = 3
    ∧ extract_steps content_c8 = ["Finally do this"]
    ∧ str_contains (generate_regular_answer [r_c8] (some "segment") "how-to")
        "Here's how to do that in" = false
    ∧ str_starts_with (generate_regular_answer [r_c8] (some "segment") "how-to")
        "Here's information on how to do that in Segment:" = true := by
  refine ⟨by decide, by decide, by decide, by decide⟩

/-- C8 (amended): for every single-result how-to response whose top
result's content yields exactly three steps under the step extraction
(which for the numbered-list pattern requires the numbered items not to be
separated by newlines — the lazy capture cannot cross a line break), the
answer renders exactly those three steps as the numbered lines `1.`, `2.`,
`3.` in their original order, prefixed by
`"Here's how to do that in {Platform}:"` and followed by the source
reference. -/
theorem C8_howto_steps :
    ∀ (r : ScoredResult) (plat s1 s2 s3 : String),
      plat ≠ "" →
      extract_steps r.content = [s1, s2, s3] →
      generate_regular_answer [r] (some plat) "how-to"
        = "Here's how to do that in " ++ py_capitalize plat ++ ":\n\n"
          ++ ("1. " ++ s1 ++ "\n" ++ "2. " ++ s2 ++ "\n" ++ "3. " ++ s3)
          ++ "\n\n" ++ format_source_reference r.metadata := by
  intro r plat s1 s2 s3 hplat hsteps
  have henum : (([s1, s2, s3].enum).map (fun p => toString (p.1 + 1) ++ ". " ++ p.2))
      = ["1. " ++ s1, "2. " ++ s2, "3. " ++ s3] := by
    rw [show [s1, s2, s3].enum = [(0, s1), (1, s2), (2, s3)] from rfl]
    simp only [List.map_cons, List.map_nil, List.cons.injEq, and_true]
    exact ⟨rfl, rfl, rfl⟩
  simp only [generate_regular_answer, hsteps, henum, hplat]
  have hcond : (! [s1, s2, s3].isEmpty && decide (2 ≤ [s1, s2, s3].length)) = true := by
    simp
  simp only [hcond, List.isEmpty_nil, if_true, if_false, eq_self_iff_true,
    py_join, List.foldl_cons, List.foldl_nil, String.append_assoc]

set_option maxRecDepth 8000 in
/-- C8 witness: a content with three numbered steps on one line renders as
the three numbered lines with the how-to prefix. -/
theorem C8_howto_steps_witness :
    generate_regular_answer [r_c8w] (some "segment") "how-to"
      = "Here's how to do that in " ++ py_capitalize "segment" ++ ":\n\n"
        ++ ("1. " ++ "Install the SDK." ++ "\n" ++ "2. " ++ "Configure the source." ++ "\n"
            ++ "3. " ++ "Start tracking.")
        ++ "\n\n" ++ format_source_reference r_c8w.metadata :=
  C8_howto_steps r_c8w "segment" "Install the SDK." "Configure the source."
    "Start tracking." (by decide) (by decide)
